import Mathlib

/-!
Shallow embedding of the mode-dispatch and DOM-recovery controller of
`src/component/base/DraftEditor.react.js` (the `DraftEditor` class), together
with theorems settling the specification claims about it.

The mutable instance fields of the class (`_blockSelectEvents`, `_clipboard`,
`_guardAgainstRender`, `_handler`, `_dragCount`, and the React
`state.containerKey`) are modelled as one state record, and each instance
method is modelled as an explicit state-passing function translated from its
source body. External collaborators (the handler modules, `EditorState`,
the DOM scroll machinery) are modelled abstractly, exactly as opaquely as the
controller itself uses them.
-/

namespace DraftEditorSpec

/-- The closed set of editor behavior modes (`DraftEditorModes`):
the keys of the `handlerMap` object literal. -/
inductive Mode
  | edit
  | composite
  | drag
  | cut
  | render
deriving DecidableEq, Repr

/-- The three concrete handler modules referenced by `handlerMap`
(`DraftEditorEditHandler`, `DraftEditorCompositionHandler`,
`DraftEditorDragHandler`).  Their business logic is external to this
controller; the controller only stores and dereferences them, so they are
modelled as opaque tags. -/
inductive HandlerModule
  | editHandler
  | compositionHandler
  | dragHandler
deriving DecidableEq, Repr

/-- The `handlerMap` object: a fixed mapping from mode to handler module,
with `cut` and `render` mapped to `null` (no handler). -/
def handlerMap : Mode → Option HandlerModule
  | .edit => some .editHandler
  | .composite => some .compositionHandler
  | .drag => some .dragHandler
  | .cut => none
  | .render => none

/-- The staged clipboard payload (`BlockMap` in the source).  Its structure is
opaque to the controller; a concrete carrier with decidable equality is used
so that properties can be evaluated on concrete inputs. -/
structure BlockMap where
  text : String
deriving DecidableEq, Repr

/-- The controller's mutable state: the instance fields set up in the
`DraftEditor` constructor plus the React component state `containerKey`.
The `_handler` field holds `null` initially and `handlerMap[mode]` after a
mode transition; `null` and `undefined` are both modelled as `none` (the
dispatcher only ever tests the field for truthiness). -/
structure ControllerState where
  blockSelectEvents : Bool
  clipboard : Option BlockMap
  guardAgainstRender : Bool
  handler : Option HandlerModule
  dragCount : Int
  containerKey : Nat
deriving DecidableEq, Repr

/-- The state established by the `DraftEditor` constructor. -/
def initialState : ControllerState :=
  { blockSelectEvents := false
    clipboard := none
    guardAgainstRender := false
    handler := none
    dragCount := 0
    containerKey := 0 }

/-- `_setMode(mode)`: `this._handler = handlerMap[mode];`. -/
def setMode (mode : Mode) (s : ControllerState) : ControllerState :=
  { s with handler := handlerMap mode }

/-- `_exitCurrentMode()`: `this.setMode('edit');`. -/
def exitCurrentMode (s : ControllerState) : ControllerState :=
  setMode .edit s

/-- `_setClipboard(clipboard)`: `this._clipboard = clipboard;`. -/
def setClipboard (clipboard : Option BlockMap) (s : ControllerState) :
    ControllerState :=
  { s with clipboard := clipboard }

/-- `_getClipboard()`: `return this._clipboard;`.  A pure read: the method
body only returns the field, so the model gives it no state output. -/
def getClipboard (s : ControllerState) : Option BlockMap :=
  s.clipboard

/-- `_setRenderGuard()`: `this._guardAgainstRender = true;`. -/
def setRenderGuard (s : ControllerState) : ControllerState :=
  { s with guardAgainstRender := true }

/-- `_removeRenderGuard()`: `this._guardAgainstRender = false;`. -/
def removeRenderGuard (s : ControllerState) : ControllerState :=
  { s with guardAgainstRender := false }

/-- `componentWillUpdate()`: `this._blockSelectEvents = true;`. -/
def componentWillUpdate (s : ControllerState) : ControllerState :=
  { s with blockSelectEvents := true }

/-- `componentDidUpdate()`: `this._blockSelectEvents = false;`. -/
def componentDidUpdate (s : ControllerState) : ControllerState :=
  { s with blockSelectEvents := false }

/-- `_onDragEnter()`: `this._dragCount++;`. -/
def onDragEnter (s : ControllerState) : ControllerState :=
  { s with dragCount := s.dragCount + 1 }

/-- `_onDragLeave()`: `this._dragCount--; if (this._dragCount === 0) {
this.exitCurrentMode(); }`. -/
def onDragLeave (s : ControllerState) : ControllerState :=
  let s1 := { s with dragCount := s.dragCount - 1 }
  if s1.dragCount = 0 then exitCurrentMode s1 else s1

/-! ## Drag tracker instrumentation

The drag tracker is the pair `_onDragEnter` / `_onDragLeave`.  To reason about
how often the mode exit fires across a whole sequence of events, the run is
instrumented with a counter of `exitCurrentMode` invocations. -/

/-- A drag event delivered to the controller: the `onDragEnter` and
`onDragLeave` DOM callbacks bound in `render()`. -/
inductive DragEvent
  | enter
  | leave
deriving DecidableEq, Repr

/-- Controller state paired with the number of `exitCurrentMode` invocations
performed so far (pure instrumentation, no behavior of its own). -/
structure DragRun where
  state : ControllerState
  exits : Nat
deriving DecidableEq, Repr

/-- One drag event processed by the instrumented tracker.  The `leave` case
re-traces `_onDragLeave`: decrement first, then `exitCurrentMode()` exactly
when the decremented counter equals zero. -/
def dragStepT (r : DragRun) : DragEvent → DragRun
  | .enter => ⟨onDragEnter r.state, r.exits⟩
  | .leave =>
      let s1 := { r.state with dragCount := r.state.dragCount - 1 }
      if s1.dragCount = 0 then ⟨exitCurrentMode s1, r.exits + 1⟩ else ⟨s1, r.exits⟩

/-- Run a whole sequence of drag events through the instrumented tracker. -/
def runDragT (r : DragRun) (evs : List DragEvent) : DragRun :=
  evs.foldl dragStepT r

/-- The effect of one drag event on the counter alone. -/
def dragCountStep (c : Int) : DragEvent → Int
  | .enter => c + 1
  | .leave => c - 1

/-- The counter value after a sequence of drag events, starting from `c`. -/
def dragCounts (c : Int) (evs : List DragEvent) : Int :=
  evs.foldl dragCountStep c

/-- How many events of the sequence are a `leave` that lands the counter
exactly on zero — the firing condition of `_onDragLeave`. -/
def zeroLands (c : Int) : List DragEvent → Nat
  | [] => 0
  | ev :: rest =>
      let c1 := dragCountStep c ev
      (if ev = DragEvent.leave ∧ c1 = 0 then 1 else 0) + zeroLands c1 rest

/-- A maximal balanced run of drag events: nonempty, nets to zero, and the
counter stays strictly positive at every interior point (it returns to zero
only at the very end, so the run cannot be split at an earlier zero). -/
def BalancedBlock (evs : List DragEvent) : Prop :=
  evs ≠ [] ∧ dragCounts 0 evs = 0 ∧
    ∀ n, n < evs.length → 0 < n → 0 < dragCounts 0 (evs.take n)

instance (evs : List DragEvent) : Decidable (BalancedBlock evs) := by
  unfold BalancedBlock; infer_instance

/-- A trailing run during which the counter, starting from zero, never
returns to zero (an unfinished drag gesture). -/
def NeverReturnsToZero (evs : List DragEvent) : Prop :=
  ∀ n, n ≤ evs.length → 0 < n → dragCounts 0 (evs.take n) ≠ 0

instance (evs : List DragEvent) : Decidable (NeverReturnsToZero evs) := by
  unfold NeverReturnsToZero; infer_instance

/-! ## Focus and DOM recovery

`_focus` reads the selection's focus bit, resolves a target scroll offset,
issues the native focus (which may implicitly scroll the container), restores
the scroll offset, and force-reapplies the selection when the editor state did
not already report focus.  The DOM environment (scroll parent identity, its
offset before focusing, and wherever the implicit scroll moves it) is an
explicit input. -/

/-- A `DraftScrollPosition` value: `{x, y}`. -/
structure ScrollPosition where
  x : Int
  y : Int
deriving DecidableEq, Repr

/-- A selection, as far as `_focus` inspects it: its `getHasFocus()` bit plus
an opaque identity (so distinct selections stay distinct in the model). -/
structure Selection where
  hasFocus : Bool
  id : Nat
deriving DecidableEq, Repr

/-- An `EditorState`, as far as `_focus` inspects it: `getSelection()`. -/
structure EditorState where
  selection : Selection
deriving DecidableEq, Repr

/-- An `update` call issued by `_focus`: it always carries
`EditorState.forceSelection(editorState, editorState.getSelection())`, an
external constructor modelled by recording both arguments. -/
inductive UpdateCall
  | forceSelection (es : EditorState) (sel : Selection)
deriving DecidableEq, Repr

/-- The scroll container chosen by `Style.getScrollParent(editorNode)`:
either the page `window` or some scrollable element. -/
inductive ScrollParent
  | window
  | element (id : Nat)
deriving DecidableEq, Repr

/-- The DOM environment `_focus` runs against: which scroll container wraps
the editor, its offset before the native focus call, and the offset the
browser's implicit scroll-into-view leaves it at right after
`editorNode.focus()`. -/
structure FocusEnv where
  scrollParent : ScrollParent
  scrollBefore : ScrollPosition
  scrollAfterNativeFocus : ScrollPosition
deriving DecidableEq, Repr

/-- The observable outcome of one `_focus` call: the scroll container's final
offset and the list of `update` calls issued. -/
structure FocusResult where
  finalScroll : ScrollPosition
  updates : List UpdateCall
deriving DecidableEq, Repr

/-- `_focus(scrollPosition?)`, traced step by step from the source:
`alreadyHasFocus = editorState.getSelection().getHasFocus()`;
`{x, y} = scrollPosition || getScrollPosition(scrollParent)` (a supplied
position object is always truthy, so the default applies exactly when no
argument was given); `editorNode.focus()` leaves the container at the
environment's implicit-scroll offset; then `window.scrollTo(x, y)` when the
scroll parent is the window, else `Scroll.setTop(scrollParent, y)` — which
restores only the vertical offset; finally, when focus was not already
reported, one `update(EditorState.forceSelection(editorState,
editorState.getSelection()))`. -/
def focusSim (es : EditorState) (scrollPosition : Option ScrollPosition)
    (env : FocusEnv) : FocusResult :=
  let alreadyHasFocus := es.selection.hasFocus
  let resolved := scrollPosition.getD env.scrollBefore
  let afterFocus := env.scrollAfterNativeFocus
  let finalScroll :=
    match env.scrollParent with
    | .window => ⟨resolved.x, resolved.y⟩
    | .element _ => ⟨afterFocus.x, resolved.y⟩
  let updates :=
    if alreadyHasFocus then ([] : List UpdateCall)
    else [UpdateCall.forceSelection es es.selection]
  ⟨finalScroll, updates⟩

/-- One observable step of `_restoreEditorDOM`: first the `setState` commit of
the incremented `containerKey`, then — in the `setState` completion callback,
hence strictly after the commit — the `_focus` invocation with the very
`scrollPosition` argument `_restoreEditorDOM` received. -/
inductive RestoreStep
  | commitContainerKey (newKey : Nat)
  | focusCall (scrollPosition : Option ScrollPosition)
deriving DecidableEq, Repr

/-- `_restoreEditorDOM(scrollPosition?)`:
`this.setState({containerKey: this.state.containerKey + 1}, () => {
this._focus(scrollPosition); });`.  Returns the post-commit state and the
ordered trace of observable steps. -/
def restoreEditorDOM (scrollPosition : Option ScrollPosition)
    (s : ControllerState) : ControllerState × List RestoreStep :=
  let s1 := { s with containerKey := s.containerKey + 1 }
  (s1, [RestoreStep.commitContainerKey s1.containerKey,
        RestoreStep.focusCall scrollPosition])

/-! ## Event dispatcher

`_buildHandler(eventName)` returns a stable callback closing over the event
name.  The handler modules' operations are external, so they are given as an
environment mapping each module and operation name to an optional operation;
an operation, when invoked, receives the controller (`method.call(this, e)`)
and the raw event.  The model returns `some result` when an operation was
invoked and `none` when the callback did nothing. -/

/-- A handler-module operation: applied to the controller (`this`) and the
raw event. -/
def HandlerOp (ε ρ : Type) : Type := ControllerState → ε → ρ

/-- The callback produced by `_buildHandler(eventName)`, applied to a raw
event `e`: `if (!this.props.readOnly) { const method = this._handler &&
this._handler[eventName]; method && method.call(this, e); }`. -/
def buildHandler {ε ρ : Type} (moduleOps : HandlerModule → String → Option (HandlerOp ε ρ))
    (eventName : String) (readOnly : Bool) (ctrl : ControllerState) (e : ε) :
    Option ρ :=
  if !readOnly then
    match ctrl.handler.bind (fun h => moduleOps h eventName) with
    | some method => some (method ctrl e)
    | none => none
  else
    none

/-! ## Runtime-level mode transition

`_setMode` receives a `DraftEditorModes` string; the closed set is enforced
only by the static (Flow) annotation.  At runtime the body is a plain
property access and assignment, so it is also modelled at the string level to
settle what happens for an identifier outside the closed set. -/

/-- The key under which a mode is stored in the `handlerMap` object. -/
def Mode.key : Mode → String
  | .edit => "edit"
  | .composite => "composite"
  | .drag => "drag"
  | .cut => "cut"
  | .render => "render"

/-- The `handlerMap` object literal as a key/value list. -/
def handlerMapEntries : List (String × Option HandlerModule) :=
  [("edit", some .editHandler), ("composite", some .compositionHandler),
   ("drag", some .dragHandler), ("cut", none), ("render", none)]

/-- JS property access `handlerMap[mode]` on the object literal: the stored
value for a present key, `undefined` (outer `none`) for an absent key. -/
def handlerMapAccess (mode : String) : Option (Option HandlerModule) :=
  handlerMapEntries.lookup mode

/-- `_setMode` at the dynamic-semantics level: property access and field
assignment on plain objects never throw in JS, so the body always completes
normally (`Except.ok`); an absent key assigns `undefined` to `this._handler`,
modelled — like the `null` entries — as `none`, since the dispatcher only
ever tests the field for truthiness. -/
def setModeStr (mode : String) (s : ControllerState) :
    Except String ControllerState :=
  Except.ok { s with handler := (handlerMapAccess mode).join }

/-! ## Helper lemmas -/

@[simp]
theorem setMode_dragCount (m : Mode) (s : ControllerState) :
    (setMode m s).dragCount = s.dragCount := rfl

@[simp]
theorem exitCurrentMode_dragCount (s : ControllerState) :
    (exitCurrentMode s).dragCount = s.dragCount := rfl

@[simp]
theorem onDragEnter_dragCount (s : ControllerState) :
    (onDragEnter s).dragCount = s.dragCount + 1 := rfl

@[simp]
theorem zeroLands_nil (c : Int) : zeroLands c [] = 0 := rfl

@[simp]
theorem dragCounts_nil (c : Int) : dragCounts c [] = c := rfl

@[simp]
theorem dragCounts_cons (c : Int) (ev : DragEvent) (rest : List DragEvent) :
    dragCounts c (ev :: rest) = dragCounts (dragCountStep c ev) rest := rfl

theorem dragCounts_append (a b : List DragEvent) (c : Int) :
    dragCounts c (a ++ b) = dragCounts (dragCounts c a) b := by
  simp [dragCounts, List.foldl_append]

theorem zeroLands_cons (c : Int) (ev : DragEvent) (rest : List DragEvent) :
    zeroLands c (ev :: rest) =
      (if ev = DragEvent.leave ∧ dragCountStep c ev = 0 then 1 else 0) +
        zeroLands (dragCountStep c ev) rest := rfl

theorem zeroLands_append (a b : List DragEvent) : ∀ c : Int,
    zeroLands c (a ++ b) = zeroLands c a + zeroLands (dragCounts c a) b := by
  induction a with
  | nil => intro c; simp
  | cons ev rest ih =>
      intro c
      simp only [List.cons_append, zeroLands_cons, dragCounts_cons, ih]
      omega

/-- The instrumented run is faithful: its exit count adds one `exitCurrentMode`
invocation per `leave` event that lands the counter on zero, and its counter
evolves by plus-or-minus one. -/
theorem runDragT_spec (evs : List DragEvent) : ∀ (s : ControllerState) (ex : Nat),
    (runDragT ⟨s, ex⟩ evs).exits = ex + zeroLands s.dragCount evs ∧
    (runDragT ⟨s, ex⟩ evs).state.dragCount = dragCounts s.dragCount evs := by
  induction evs with
  | nil => intro s ex; simp [runDragT]
  | cons ev rest ih =>
      intro s ex
      cases ev with
      | enter =>
          have h := ih (onDragEnter s) ex
          simpa [runDragT, dragStepT, zeroLands_cons, dragCountStep, List.foldl]
            using h
      | leave =>
          by_cases h0 : s.dragCount - 1 = 0
          · have h := ih (exitCurrentMode { s with dragCount := s.dragCount - 1 }) (ex + 1)
            simp only [runDragT, List.foldl, dragStepT, h0, if_pos, exitCurrentMode_dragCount] at h ⊢
            simp only [zeroLands_cons, dragCountStep, h0, and_self, if_true, dragCounts_cons]
            constructor
            · rw [h.1]; omega
            · exact h.2
          · have h := ih { s with dragCount := s.dragCount - 1 } ex
            simp only [runDragT, List.foldl, dragStepT, h0, if_neg, not_false_iff] at h ⊢
            simp only [zeroLands_cons, dragCountStep, h0, and_false, if_false, dragCounts_cons]
            constructor
            · rw [h.1]; omega
            · exact h.2

theorem dragCounts_take_succ (c : Int) (ev : DragEvent) (rest : List DragEvent)
    (n : Nat) :
    dragCounts c ((ev :: rest).take (n + 1)) =
      dragCounts (dragCountStep c ev) (rest.take n) := rfl

/-- Over a run whose interior counts stay strictly positive and whose net is
zero, starting from a nonnegative counter, the firing condition holds exactly
once (at the final event, which must be a `leave` landing on zero). -/
theorem zeroLands_of_block : ∀ (evs : List DragEvent) (c : Int), 0 ≤ c →
    evs ≠ [] →
    (∀ n, n < evs.length → 0 < n → 0 < dragCounts c (evs.take n)) →
    dragCounts c evs = 0 →
    zeroLands c evs = 1 := by
  intro evs
  induction evs with
  | nil => intro c _ hne _ _; exact absurd rfl hne
  | cons ev rest ih =>
      intro c hc _ hint hnet
      cases rest with
      | nil =>
          cases ev with
          | enter =>
              exfalso
              simp [dragCounts, dragCountStep] at hnet
              omega
          | leave =>
              simp [dragCounts, dragCountStep] at hnet
              simp [zeroLands_cons, dragCountStep, hnet]
      | cons ev2 rest2 =>
          have h1 : 0 < dragCounts c ((ev :: ev2 :: rest2).take 1) := by
            apply hint 1 (by simp) (by omega)
          have hc1 : 0 < dragCountStep c ev := by
            simpa [dragCounts, dragCountStep] using h1
          have hint2 : ∀ n, n < (ev2 :: rest2).length → 0 < n →
              0 < dragCounts (dragCountStep c ev) ((ev2 :: rest2).take n) := by
            intro n hn hpos
            have := hint (n + 1) (by simpa using Nat.succ_lt_succ hn) (by omega)
            simpa [dragCounts_take_succ] using this
          have hnet2 : dragCounts (dragCountStep c ev) (ev2 :: rest2) = 0 := by
            simpa using hnet
          have := ih (dragCountStep c ev) (le_of_lt hc1) (by simp) hint2 hnet2
          simp only [zeroLands_cons, this]
          have : ¬ (ev = DragEvent.leave ∧ dragCountStep c ev = 0) := by
            intro h
            omega
          simp [this]

/-- Over a run during which the counter never lands on zero, the firing
condition never holds. -/
theorem zeroLands_of_no_return : ∀ (evs : List DragEvent) (c : Int),
    (∀ n, n ≤ evs.length → 0 < n → dragCounts c (evs.take n) ≠ 0) →
    zeroLands c evs = 0 := by
  intro evs
  induction evs with
  | nil => intro c _; rfl
  | cons ev rest ih =>
      intro c hno
      have h1 : dragCounts c ((ev :: rest).take 1) ≠ 0 := by
        apply hno 1 (by simp) (by omega)
      have hc1 : dragCountStep c ev ≠ 0 := by
        simpa [dragCounts, dragCountStep] using h1
      have hrest : ∀ n, n ≤ rest.length → 0 < n →
          dragCounts (dragCountStep c ev) (rest.take n) ≠ 0 := by
        intro n hn hpos
        have := hno (n + 1) (by simpa using Nat.succ_le_succ hn) (by omega)
        simpa [dragCounts_take_succ] using this
      have := ih (dragCountStep c ev) hrest
      simp [zeroLands_cons, this, hc1]

/-- Concatenating balanced blocks: the firing condition holds once per block
and the counter returns to zero. -/
theorem zeroLands_join : ∀ (blocks : List (List DragEvent)),
    (∀ B ∈ blocks, BalancedBlock B) →
    zeroLands 0 blocks.flatten = blocks.length ∧ dragCounts 0 blocks.flatten = 0 := by
  intro blocks
  induction blocks with
  | nil => intro _; simp [List.flatten]
  | cons B rest ih =>
      intro hb
      have hB : BalancedBlock B := hb B (by simp)
      obtain ⟨hne, hnet, hint⟩ := hB
      have hB1 : zeroLands 0 B = 1 :=
        zeroLands_of_block B 0 le_rfl hne hint hnet
      have hrest := ih (fun B2 h2 => hb B2 (by simp [h2]))
      constructor
      · rw [List.flatten_cons, zeroLands_append, hB1, hnet, hrest.1]
        simp only [List.length_cons]
        omega
      · rw [List.flatten_cons, dragCounts_append, hnet, hrest.2]

/-- Case analysis of one instrumented drag step: either the exit count is
unchanged, or the event was a `leave` landing the counter exactly on zero and
the count went up by one. -/
theorem dragStepT_exits_cases (r : DragRun) (ev : DragEvent) :
    (dragStepT r ev).exits = r.exits ∨
      ((dragStepT r ev).exits = r.exits + 1 ∧ ev = DragEvent.leave ∧
        (dragStepT r ev).state.dragCount = 0) := by
  cases ev with
  | enter => left; rfl
  | leave =>
      by_cases h : r.state.dragCount - 1 = 0
      · right; simp [dragStepT, h]
      · left; simp [dragStepT, h]

/-! ## Claims -/

/-- Claim C1, counterexample: a single `onDragLeave` with no matching
`onDragEnter`, from the freshly constructed controller, leaves the drag
counter at -1 — strictly negative, so underflow is not clamped at zero. -/
theorem dragCounter_underflow_counterexample :
    (runDragT ⟨initialState, 0⟩ [DragEvent.leave]).state.dragCount = -1 ∧
    (runDragT ⟨initialState, 0⟩ [DragEvent.leave]).state.dragCount < 0 := by
  decide

/-- Claim C1 (amended): the drag counter is not clamped — an unmatched
`onDragLeave` drives it to -1 — but `exitCurrentMode` still fires at most once
per event, only on a `leave` whose decrement lands the counter exactly on
zero, and never from a state whose counter is already zero, so it cannot fire
twice for the same zero-crossing. -/
theorem dragCounter_no_double_fire (r : DragRun) (ev : DragEvent) :
    ((dragStepT r ev).exits = r.exits ∨ (dragStepT r ev).exits = r.exits + 1) ∧
    ((dragStepT r ev).exits = r.exits + 1 →
      ev = DragEvent.leave ∧ (dragStepT r ev).state.dragCount = 0) ∧
    (r.state.dragCount = 0 → (dragStepT r ev).exits = r.exits) ∧
    (runDragT ⟨initialState, 0⟩ [DragEvent.leave]).state.dragCount = -1 := by
  refine ⟨?_, ?_, ?_, by decide⟩
  · rcases dragStepT_exits_cases r ev with h | h
    · exact Or.inl h
    · exact Or.inr h.1
  · intro hup
    rcases dragStepT_exits_cases r ev with h | h
    · omega
    · exact h.2
  · intro hzero
    cases ev with
    | enter => rfl
    | leave =>
        have h1 : r.state.dragCount - 1 ≠ 0 := by omega
        simp [dragStepT, h1]

/-- Witness for Claim C1's amended theorem: from counter 1, a `leave` fires
and lands on zero; from counter 0, a further `leave` does not fire again. -/
theorem dragCounter_no_double_fire_witness :
    (DragEvent.leave = DragEvent.leave ∧
      (dragStepT ⟨{ initialState with dragCount := 1 }, 0⟩
        DragEvent.leave).state.dragCount = 0) ∧
    (dragStepT ⟨initialState, 5⟩ DragEvent.leave).exits = 5 := by
  constructor
  · exact (dragCounter_no_double_fire
      ⟨{ initialState with dragCount := 1 }, 0⟩ DragEvent.leave).2.1 (by decide)
  · exact (dragCounter_no_double_fire
      ⟨initialState, 5⟩ DragEvent.leave).2.2.1 rfl

/-- Claim C3: starting from counter zero, over any event sequence that splits
into maximal balanced blocks (each returning the counter to zero exactly at
its end) followed by a tail during which the counter never returns to zero,
`exitCurrentMode` fires exactly once per block; and a step can fire only when
its counter has just landed exactly on zero, never while it is above zero. -/
theorem dragTracker_balanced_blocks (blocks : List (List DragEvent))
    (rest : List DragEvent) (hb : ∀ B ∈ blocks, BalancedBlock B)
    (hr : NeverReturnsToZero rest) (s : ControllerState)
    (hs : s.dragCount = 0) (ex : Nat) :
    (runDragT ⟨s, ex⟩ (blocks.flatten ++ rest)).exits = ex + blocks.length ∧
    ∀ (r : DragRun) (ev : DragEvent), r.exits < (dragStepT r ev).exits →
      (dragStepT r ev).state.dragCount = 0 := by
  constructor
  · have h := (runDragT_spec (blocks.flatten ++ rest) s ex).1
    rw [hs, zeroLands_append, (zeroLands_join blocks hb).1,
      (zeroLands_join blocks hb).2, zeroLands_of_no_return rest 0 hr] at h
    omega
  · intro r ev hlt
    rcases dragStepT_exits_cases r ev with h | h
    · omega
    · exact h.2.2

/-- Witness for Claim C3, Scenario A: in drag mode, the block of two enters
and two leaves fires the mode exit exactly once. -/
theorem dragTracker_balanced_blocks_witness :
    (runDragT ⟨setMode Mode.drag initialState, 0⟩
        ([[DragEvent.enter, DragEvent.enter, DragEvent.leave,
           DragEvent.leave]].flatten ++ [])).exits =
      0 + [[DragEvent.enter, DragEvent.enter, DragEvent.leave,
            DragEvent.leave]].length :=
  (dragTracker_balanced_blocks
    [[DragEvent.enter, DragEvent.enter, DragEvent.leave, DragEvent.leave]] []
    (by decide) (by decide) (setMode Mode.drag initialState) rfl 0).1

/-- Claim C2: the callback `_buildHandler(eventName)` builds is a no-op when
the surface is read-only; otherwise it invokes the operation named by the
event kind on the active handler module, with the controller as this-context
and the raw event as argument, when that operation exists — and does nothing,
without error, when no handler is active or the handler lacks the
operation. -/
theorem dispatcher_spec {ε ρ : Type}
    (moduleOps : HandlerModule → String → Option (HandlerOp ε ρ))
    (eventName : String) (readOnly : Bool) (ctrl : ControllerState) (e : ε) :
    (readOnly = true → buildHandler moduleOps eventName readOnly ctrl e = none) ∧
    (readOnly = false → ∀ h method, ctrl.handler = some h →
      moduleOps h eventName = some method →
      buildHandler moduleOps eventName readOnly ctrl e = some (method ctrl e)) ∧
    (readOnly = false → ctrl.handler = none →
      buildHandler moduleOps eventName readOnly ctrl e = none) ∧
    (readOnly = false → ∀ h, ctrl.handler = some h →
      moduleOps h eventName = none →
      buildHandler moduleOps eventName readOnly ctrl e = none) := by
  refine ⟨?_, ?_, ?_, ?_⟩
  · intro hro; simp [buildHandler, hro]
  · intro hro h method hh hm; simp [buildHandler, hro, hh, hm]
  · intro hro hh; simp [buildHandler, hro, hh]
  · intro hro h hh hm; simp [buildHandler, hro, hh, hm]

/-- A sample handler-module operation table, used only to evaluate the
dispatcher on concrete inputs: the edit handler implements `onCopy` and
nothing else. -/
def sampleOps : HandlerModule → String → Option (HandlerOp Nat Nat)
  | .editHandler, "onCopy" => some (fun _ e => e + 1)
  | _, _ => none

/-- Witness for Claim C2: all four dispatcher cases at concrete inputs. -/
theorem dispatcher_spec_witness :
    buildHandler sampleOps "onCopy" true (setMode Mode.edit initialState) 3 = none ∧
    buildHandler sampleOps "onCopy" false (setMode Mode.edit initialState) 3 = some 4 ∧
    buildHandler sampleOps "onCopy" false initialState 3 = none ∧
    buildHandler sampleOps "onKeyDown" false (setMode Mode.edit initialState) 3 = none := by
  refine ⟨?_, ?_, ?_, ?_⟩
  · exact (dispatcher_spec sampleOps "onCopy" true
      (setMode Mode.edit initialState) 3).1 rfl
  · exact (dispatcher_spec sampleOps "onCopy" false
      (setMode Mode.edit initialState) 3).2.1 rfl
      HandlerModule.editHandler (fun _ e => e + 1) rfl rfl
  · exact (dispatcher_spec sampleOps "onCopy" false initialState 3).2.2.1 rfl rfl
  · exact (dispatcher_spec sampleOps "onKeyDown" false
      (setMode Mode.edit initialState) 3).2.2.2 rfl
      HandlerModule.editHandler rfl rfl

/-- The imperative mode-transition calls reaching the controller. -/
inductive ModeOp
  | set (m : Mode)
  | exit
deriving DecidableEq, Repr

/-- The mode a transition call targets: `exitCurrentMode` targets `edit`. -/
def ModeOp.targetMode : ModeOp → Mode
  | .set m => m
  | .exit => .edit

/-- Apply one mode-transition call to the controller state. -/
def applyModeOp (s : ControllerState) (op : ModeOp) : ControllerState :=
  match op with
  | .set m => setMode m s
  | .exit => exitCurrentMode s

/-- Apply a sequence of mode-transition calls. -/
def applyModeOps (s : ControllerState) (ops : List ModeOp) : ControllerState :=
  ops.foldl applyModeOp s

/-- Claim C4: after any sequence of `setMode` / `exitCurrentMode` calls, the
active handler equals the registry's entry for the most recently set mode,
the entries for `cut` and `render` are none, and `exitCurrentMode` is
extensionally `setMode edit`. -/
theorem activeHandler_tracks_last_mode (s : ControllerState)
    (ops : List ModeOp) (op : ModeOp) :
    (applyModeOps s (ops ++ [op])).handler = handlerMap op.targetMode ∧
    (∀ t, exitCurrentMode t = setMode Mode.edit t) ∧
    handlerMap Mode.cut = none ∧ handlerMap Mode.render = none := by
  refine ⟨?_, fun t => rfl, rfl, rfl⟩
  rw [applyModeOps, List.foldl_append]
  cases op with
  | set m => rfl
  | exit => rfl

/-- `_onDragLeave` never touches the container key (both its branches only
update `dragCount` and, via `exitCurrentMode`, `handler`). -/
theorem onDragLeave_containerKey (s : ControllerState) :
    (onDragLeave s).containerKey = s.containerKey := by
  unfold onDragLeave
  by_cases h : s.dragCount - 1 = 0 <;> simp [h, exitCurrentMode, setMode]

/-- Claim C5: `restoreEditorDOM` increments `containerKey` (the remount key)
by exactly one, then — strictly after the commit of the rebuilt subtree —
invokes `focus` with the same `scrollPosition` argument; the key starts at 0,
and no other controller operation changes it. -/
theorem restoreEditorDOM_remount (scrollPosition : Option ScrollPosition)
    (s : ControllerState) :
    (restoreEditorDOM scrollPosition s).1.containerKey = s.containerKey + 1 ∧
    (restoreEditorDOM scrollPosition s).2 =
      [RestoreStep.commitContainerKey (s.containerKey + 1),
       RestoreStep.focusCall scrollPosition] ∧
    initialState.containerKey = 0 ∧
    (∀ m, (setMode m s).containerKey = s.containerKey) ∧
    (exitCurrentMode s).containerKey = s.containerKey ∧
    (∀ b, (setClipboard b s).containerKey = s.containerKey) ∧
    (setRenderGuard s).containerKey = s.containerKey ∧
    (removeRenderGuard s).containerKey = s.containerKey ∧
    (componentWillUpdate s).containerKey = s.containerKey ∧
    (componentDidUpdate s).containerKey = s.containerKey ∧
    (onDragEnter s).containerKey = s.containerKey ∧
    (onDragLeave s).containerKey = s.containerKey :=
  ⟨rfl, rfl, rfl, fun _ => rfl, rfl, fun _ => rfl, rfl, rfl, rfl, rfl, rfl,
    onDragLeave_containerKey s⟩

/-- Claim C6: one `_focus()` call issues exactly one `update`, carrying the
force-selection of the editor-state's current selection, precisely when the
selection did not already report focus; when it did, no `update` is issued. -/
theorem focus_update_iff (es : EditorState) (scrollPosition : Option ScrollPosition)
    (env : FocusEnv) :
    (focusSim es scrollPosition env).updates.length ≤ 1 ∧
    (es.selection.hasFocus = false →
      (focusSim es scrollPosition env).updates =
        [UpdateCall.forceSelection es es.selection]) ∧
    (es.selection.hasFocus = true →
      (focusSim es scrollPosition env).updates = []) := by
  cases h : es.selection.hasFocus <;> simp [focusSim, h]

/-- Witness for Claim C6: with an unfocused selection, `_focus()` issues the
single force-selection update. -/
theorem focus_update_iff_witness :
    (focusSim ⟨⟨false, 0⟩⟩ none
        ⟨ScrollParent.window, ⟨3, 4⟩, ⟨5, 7⟩⟩).updates =
      [UpdateCall.forceSelection ⟨⟨false, 0⟩⟩ ⟨false, 0⟩] :=
  (focus_update_iff ⟨⟨false, 0⟩⟩ none
    ⟨ScrollParent.window, ⟨3, 4⟩, ⟨5, 7⟩⟩).2.1 rfl

/-- Claim C7, counterexample: with an element (non-window) scroll container
at offset (0,0), no explicit scroll position (so the resolved offset is the
captured (0,0)), and a native focus that implicitly scrolls the container to
(5,7), `_focus` ends at (5,0): the horizontal component is not restored. -/
theorem focus_scroll_counterexample :
    (focusSim ⟨⟨true, 0⟩⟩ none
        ⟨ScrollParent.element 0, ⟨0, 0⟩, ⟨5, 7⟩⟩).finalScroll = ⟨5, 0⟩ ∧
    (focusSim ⟨⟨true, 0⟩⟩ none
        ⟨ScrollParent.element 0, ⟨0, 0⟩, ⟨5, 7⟩⟩).finalScroll ≠ ⟨0, 0⟩ := by
  decide

/-- Claim C7 (amended): after `_focus`, the container's vertical offset
always equals the resolved offset's y (the supplied position if given, else
the offset captured before focusing); the horizontal offset also equals the
resolved x whenever the scroll container is the window (`window.scrollTo`),
but for an element container only the vertical offset is restored
(`Scroll.setTop`) and the horizontal offset stays wherever the implicit
scroll of the native focus left it. -/
theorem focus_restores_scroll (es : EditorState)
    (scrollPosition : Option ScrollPosition) (env : FocusEnv) :
    (focusSim es scrollPosition env).finalScroll.y =
      (scrollPosition.getD env.scrollBefore).y ∧
    (env.scrollParent = ScrollParent.window →
      (focusSim es scrollPosition env).finalScroll =
        scrollPosition.getD env.scrollBefore) ∧
    (∀ eid, env.scrollParent = ScrollParent.element eid →
      (focusSim es scrollPosition env).finalScroll =
        ⟨env.scrollAfterNativeFocus.x, (scrollPosition.getD env.scrollBefore).y⟩) := by
  rcases env with ⟨p, b, a⟩
  cases p <;> simp [focusSim]

/-- Witness for Claim C7's amended theorem, Scenario D: on the window scroll
container with an explicit position (0,120), the final offset is (0,120)
despite an implicit scroll to (5,7). -/
theorem focus_restores_scroll_witness :
    (focusSim ⟨⟨false, 0⟩⟩ (some ⟨0, 120⟩)
        ⟨ScrollParent.window, ⟨3, 4⟩, ⟨5, 7⟩⟩).finalScroll =
      (some (⟨0, 120⟩ : ScrollPosition)).getD ⟨3, 4⟩ :=
  (focus_restores_scroll ⟨⟨false, 0⟩⟩ (some ⟨0, 120⟩)
    ⟨ScrollParent.window, ⟨3, 4⟩, ⟨5, 7⟩⟩).2.1 rfl

/-- `_getClipboard()` as a state transformer: it returns the field and leaves
the state untouched (the body is a bare field read with no assignment). -/
def getClipboardOp (s : ControllerState) : Option BlockMap × ControllerState :=
  (s.clipboard, s)

/-- Claim C8: `setClipboard X` then `getClipboard` returns `X` (also for X =
none); a second `setClipboard Y` wins; and reading leaves the state untouched,
so repeated reads return the same value. -/
theorem clipboard_last_write_wins (s : ControllerState) (X Y : Option BlockMap) :
    getClipboard (setClipboard X s) = X ∧
    getClipboard (setClipboard Y (setClipboard X s)) = Y ∧
    (getClipboardOp s).2 = s ∧
    (getClipboardOp ((getClipboardOp (setClipboard X s)).2)).1 =
      (getClipboardOp (setClipboard X s)).1 :=
  ⟨rfl, rfl, rfl, rfl⟩

/-- Claim C9, counterexample: `_setMode` applied to the identifier "bogus",
outside the closed mode set, completes normally — no fatal error, no
exception — and yields exactly the state a normal transition to the
handler-less `cut` mode yields: the transition does proceed. -/
theorem setMode_unknown_counterexample :
    setModeStr "bogus" initialState = Except.ok (setMode Mode.cut initialState) :=
  rfl

/-- Claim C9 (amended): the closed mode set is enforced only by the static
type annotation; at runtime `_setMode` performs no validation, so an
identifier with no `handlerMap` entry completes normally and merely sets the
active handler to none — observably the same as a transition to a
handler-less mode — while on the closed set the string-level transition
agrees with the mode-level one. -/
theorem setMode_unknown_amended (mode : String) (s : ControllerState)
    (h : handlerMapAccess mode = none) :
    setModeStr mode s = Except.ok { s with handler := none } ∧
    (∀ m : Mode, setModeStr m.key s = Except.ok (setMode m s)) := by
  constructor
  · simp [setModeStr, h]
  · intro m; cases m <;> rfl

/-- Witness for Claim C9's amended theorem: the misspelled identifier
"composition" (the real key is "composite") is absent from the registry and
the transition still completes normally with no active handler. -/
theorem setMode_unknown_amended_witness :
    setModeStr "composition" initialState =
      Except.ok { initialState with handler := none } :=
  (setMode_unknown_amended "composition" initialState rfl).1

/-- Claim C10: frame conditions — `setClipboard`, `setRenderGuard`,
`removeRenderGuard` and `setMode` each modify only their own field
(`clipboard`, `guardAgainstRender`, `handler`), leaving `dragCount`,
`containerKey`, `blockSelectEvents` and every other field unchanged, and
`getClipboard` modifies no controller state at all. -/
theorem frame_conditions (s : ControllerState) (b : Option BlockMap) (m : Mode) :
    ((setClipboard b s).blockSelectEvents = s.blockSelectEvents ∧
     (setClipboard b s).guardAgainstRender = s.guardAgainstRender ∧
     (setClipboard b s).handler = s.handler ∧
     (setClipboard b s).dragCount = s.dragCount ∧
     (setClipboard b s).containerKey = s.containerKey ∧
     (setClipboard b s).clipboard = b) ∧
    ((setRenderGuard s).blockSelectEvents = s.blockSelectEvents ∧
     (setRenderGuard s).clipboard = s.clipboard ∧
     (setRenderGuard s).handler = s.handler ∧
     (setRenderGuard s).dragCount = s.dragCount ∧
     (setRenderGuard s).containerKey = s.containerKey ∧
     (setRenderGuard s).guardAgainstRender = true) ∧
    ((removeRenderGuard s).blockSelectEvents = s.blockSelectEvents ∧
     (removeRenderGuard s).clipboard = s.clipboard ∧
     (removeRenderGuard s).handler = s.handler ∧
     (removeRenderGuard s).dragCount = s.dragCount ∧
     (removeRenderGuard s).containerKey = s.containerKey ∧
     (removeRenderGuard s).guardAgainstRender = false) ∧
    ((setMode m s).blockSelectEvents = s.blockSelectEvents ∧
     (setMode m s).clipboard = s.clipboard ∧
     (setMode m s).guardAgainstRender = s.guardAgainstRender ∧
     (setMode m s).dragCount = s.dragCount ∧
     (setMode m s).containerKey = s.containerKey ∧
     (setMode m s).handler = handlerMap m) ∧
    (getClipboardOp s).2 = s :=
  ⟨⟨rfl, rfl, rfl, rfl, rfl, rfl⟩, ⟨rfl, rfl, rfl, rfl, rfl, rfl⟩,
   ⟨rfl, rfl, rfl, rfl, rfl, rfl⟩, ⟨rfl, rfl, rfl, rfl, rfl, rfl⟩, rfl⟩

end DraftEditorSpec
